import Mathlib

/-!
Verification of the core logic of a research-document RAG and debate pipeline.

The development shallowly embeds three parts of the code base:
* layer 1 (query_expander.py): the adaptive fetch controller and the
  prioritized search-query synthesizer;
* layer 2 (vector_store.py): partition management over the external
  knowledge store (exists / delete / next-id generation);
* layer 3 (debate_graph.py): the multi-persona debate state machine with
  its three control-flow modes.

External collaborators (the LLM, the HTTP source clients and the vector
database) are modelled as oracle parameters at exactly the boundary where
the source calls them; everything the source itself computes is embedded.
Python exceptions of an external call are modelled with Except; a Python
value that can be None is modelled with Option.
-/

/-! ### Layer 1: the adaptive fetch controller (query_expander.py, adaptive_fetch) -/

/-- A raw record returned by one source client.  A record is either a dict
carrying the three identifier entries the controller looks at (a missing or
None entry is none) together with its Python stringification, or a non-dict
value with its stringification. -/
inductive FetchItem where
  | dict (id url publication_number : Option String) (str : String)
  | other (str : String)
deriving DecidableEq

/-- Python truthiness-based `a or b` on optional strings: an absent value and
the empty string both fall through to the second operand. -/
def pyOrStr (a b : Option String) : Option String :=
  match a with
  | some s => if s = "" then b else some s
  | none => b

/-- The dedup key of one fetched item, following the source line
`unique_id = item.get(id) or item.get(url) or item.get(publication_number) or str(item)`:
the first truthy of id, url, publication_number for a dict - an entry that
is absent, None or the empty string is falsy and falls through, also for
publication_number - else the stringification of the item, which Python's
or-chain returns as the last operand whether or not it is itself truthy. -/
def dedup_key : FetchItem → String
  | FetchItem.dict i u p s => (pyOrStr i (pyOrStr u (pyOrStr p (some s)))).getD s
  | FetchItem.other s => s

/-- The mutable state of one adaptive_fetch call: the accumulated results,
the set of already seen dedup keys, and the per-query counter of newly
added items. -/
structure FetchAcc where
  all_results : List FetchItem
  seen_ids : List String
  new_count : Nat
deriving DecidableEq

/-- The inner per-item loop of adaptive_fetch: append each item whose dedup
key has not been seen, record its key, and count it as new. -/
def processItems : FetchAcc → List FetchItem → FetchAcc
  | acc, [] => acc
  | acc, item :: rest =>
    if dedup_key item ∈ acc.seen_ids then processItems acc rest
    else
      processItems
        { all_results := acc.all_results ++ [item],
          seen_ids := dedup_key item :: acc.seen_ids,
          new_count := acc.new_count + 1 } rest

/-- The query loop of adaptive_fetch.  The fetch function receives the call
index and the query; the index argument lets the model range over stateful
clients (the source passes only the query).  A fetch error is caught and the
loop continues with the next query.  After a successful query the loop
stops early when the first query alone contributed at least half of the
target (the Python test `new_count >= limit * 0.5` on integers is encoded
as `limit ≤ 2 * new_count`), or when the accumulated results reach the
target. -/
def adaptive_fetch_loop (fetch : Nat → String → Except String (List FetchItem))
    (limit : Nat) : Nat → FetchAcc → List String → List FetchItem
  | _, acc, [] => acc.all_results
  | i, acc, q :: qs =>
    match fetch i q with
    | Except.error _ => adaptive_fetch_loop fetch limit (i + 1) acc qs
    | Except.ok results =>
      let acc2 := processItems { acc with new_count := 0 } results
      if i = 0 ∧ limit ≤ 2 * acc2.new_count then acc2.all_results
      else if limit ≤ acc2.all_results.length then acc2.all_results
      else adaptive_fetch_loop fetch limit (i + 1) acc2 qs

/-- The accumulator at entry of adaptive_fetch: no results, no seen ids. -/
def emptyFetchAcc : FetchAcc :=
  { all_results := [], seen_ids := [], new_count := 0 }

/-- adaptive_fetch: run the query loop from an empty accumulator and
truncate the result to the target count.  The source name is only used for
logging in the source and does not influence the result. -/
def adaptive_fetch (fetch : Nat → String → Except String (List FetchItem))
    (queries : List String) (limit : Nat) (source_name : String) : List FetchItem :=
  let _ := source_name
  (adaptive_fetch_loop fetch limit 0 emptyFetchAcc queries).take limit

/-- Concrete fetch function for checking the early-stop theorem: the first
query returns two records with the same dedup key, any other query fails. -/
def wFetchA : Nat → String → Except String (List FetchItem) :=
  fun _ q =>
    if q = "q1" then Except.ok [FetchItem.other ("a"), FetchItem.other ("a")]
    else Except.error ("later query must not matter")

/-- Concrete fetch function agreeing with wFetchA on the first query but
returning extra records on every other query. -/
def wFetchB : Nat → String → Except String (List FetchItem) :=
  fun _ q =>
    if q = "q1" then Except.ok [FetchItem.other ("a"), FetchItem.other ("a")]
    else Except.ok [FetchItem.other ("b"), FetchItem.other ("c")]

/-- Concrete fetch function that fails on every query. -/
def wFetchErr : Nat → String → Except String (List FetchItem) :=
  fun _ _ => Except.error ("source down")

/-! ### Layer 3: the debate orchestration engine (debate_graph.py) -/

/-- A transcript entry: the generated content tagged with the display name
of the speaking persona (AIMessage with content and name in the source). -/
structure AIMessage where
  content : String
  name : String
deriving DecidableEq

/-- The debate state (the DebateState TypedDict of the source). -/
structure DebateState where
  topic : String
  expert_id : String
  messages : List AIMessage
  current_speaker : String
  turns : Nat
  mode : String
  status : String
deriving DecidableEq

/-- The initial state built by run(): zero turns, empty transcript. -/
def initial_state (topic expert_id mode : String) : DebateState :=
  { topic := topic, expert_id := expert_id, messages := [],
    current_speaker := "System", turns := 0, mode := mode, status := "start" }

/-- One persona turn.  The composite of context retrieval, prompt assembly
and LLM streaming is modelled by the oracle gen, which maps (persona key,
prompt addon, state) to the full generated content; the code then appends
one message tagged with the display name of the persona (personaName
models the personas table loaded from configuration), sets the current
speaker and increments the turn counter.  The node returns a partial state
update in the source; the graph engine merges it by appending messages
(operator.add annotation) and replacing the scalar fields, which is what
this definition performs directly. -/
def generate_response (gen : String → String → DebateState → String)
    (personaName : String → String) (state : DebateState)
    (persona_key prompt_addon : String) : DebateState :=
  { state with
      messages := state.messages ++
        [{ content := gen persona_key prompt_addon state,
           name := personaName persona_key }],
      current_speaker := persona_key,
      turns := state.turns + 1 }

/-- optimist_node: prompt depends on whether the transcript is empty. -/
def optimist_node (gen : String → String → DebateState → String)
    (personaName : String → String) (state : DebateState) : DebateState :=
  if state.messages = [] then
    generate_response gen personaName state ("P_OPT")
      (("Propose/Defend ") ++ state.topic ++ ("."))
  else
    generate_response gen personaName state ("P_OPT") ("Respond to the critique.")

/-- skeptic_node. -/
def skeptic_node (gen : String → String → DebateState → String)
    (personaName : String → String) (state : DebateState) : DebateState :=
  generate_response gen personaName state ("P_SKEP")
    ("Critique the proposal based on costs/risks.")

/-- competitor_node (the apostrophe of the source prompt text is elided;
the prompt string is only passed to the oracle). -/
def competitor_node (gen : String → String → DebateState → String)
    (personaName : String → String) (state : DebateState) : DebateState :=
  generate_response gen personaName state ("P_COMP")
    ("Critique from a competitor view. What are the weaknesses?")

/-- regulation_node. -/
def regulation_node (gen : String → String → DebateState → String)
    (personaName : String → String) (state : DebateState) : DebateState :=
  generate_response gen personaName state ("P_REG")
    ("Analyze legal/compliance risks.")

/-- moderator_node. -/
def moderator_node (gen : String → String → DebateState → String)
    (personaName : String → String) (state : DebateState) : DebateState :=
  generate_response gen personaName state ("P_MOD")
    ("Synthesize the debate so far and provide a conclusion.")

/-- Mode A (build_mode_a): the linear graph optimist, skeptic, moderator,
starting from the initial state of run(). -/
def run_mode_a (gen : String → String → DebateState → String)
    (personaName : String → String) (topic expert_id : String) : DebateState :=
  moderator_node gen personaName
    (skeptic_node gen personaName
      (optimist_node gen personaName (initial_state topic expert_id ("a"))))

/-- Mode B (build_mode_b): the linear graph optimist, competitor, skeptic,
regulator, moderator, starting from the initial state of run(). -/
def run_mode_b (gen : String → String → DebateState → String)
    (personaName : String → String) (topic expert_id : String) : DebateState :=
  moderator_node gen personaName
    (regulation_node gen personaName
      (skeptic_node gen personaName
        (competitor_node gen personaName
          (optimist_node gen personaName (initial_state topic expert_id ("b"))))))

/-- The Mode C router (the local router function of build_mode_c): send to
the moderator exactly when the turn counter reached max_turns * 2;
otherwise alternate between skeptic (after the optimist) and optimist. -/
def routerC (max_turns : Nat) (state : DebateState) : String :=
  if max_turns * 2 ≤ state.turns then "moderator"
  else if state.current_speaker = "P_OPT" then "skeptic" else "optimist"

/-- The node the Mode C graph executes when control is at the given label:
the skeptic node for the label skeptic, else the optimist node (Mode C only
routes among optimist, skeptic and moderator; the moderator is handled by
the loop itself). -/
def modeC_body (gen : String → String → DebateState → String)
    (personaName : String → String) (node : String) (state : DebateState) : DebateState :=
  if node = "skeptic" then skeptic_node gen personaName state
  else optimist_node gen personaName state

/-- The Mode C loop (build_mode_c): execute the current node, then follow
the conditional edge chosen by the router; the moderator edge goes to END.
The loop terminates because every node increments the turn counter and the
router leaves the loop once it reaches max_turns * 2 (this definition is
by well-founded recursion on the remaining turn budget). -/
def modeC_go (gen : String → String → DebateState → String)
    (personaName : String → String) (max_turns : Nat)
    (node : String) (state : DebateState) : DebateState :=
  if _h : routerC max_turns (modeC_body gen personaName node state) = "moderator" then
    moderator_node gen personaName (modeC_body gen personaName node state)
  else
    modeC_go gen personaName max_turns
      (routerC max_turns (modeC_body gen personaName node state))
      (modeC_body gen personaName node state)
termination_by max_turns * 2 - state.turns
decreasing_by
  have ht : (modeC_body gen personaName node state).turns = state.turns + 1 := by
    unfold modeC_body skeptic_node optimist_node generate_response
    split
    · rfl
    · split <;> rfl
  have hlt : (modeC_body gen personaName node state).turns < max_turns * 2 := by
    by_contra hge
    push_neg at hge
    apply _h
    unfold routerC
    rw [if_pos hge]
  omega

/-- Mode C (build_mode_c plus run()): entry point is the optimist. -/
def run_mode_c (gen : String → String → DebateState → String)
    (personaName : String → String) (topic expert_id : String)
    (max_turns : Nat) : DebateState :=
  modeC_go gen personaName max_turns ("optimist") (initial_state topic expert_id ("c"))

/-- One persona turn of the engine, as a step relation: the five node
functions are the only operations any mode applies to the state. -/
inductive DebateStep (gen : String → String → DebateState → String)
    (personaName : String → String) : DebateState → DebateState → Prop where
  | optimist (s : DebateState) : DebateStep gen personaName s (optimist_node gen personaName s)
  | skeptic (s : DebateState) : DebateStep gen personaName s (skeptic_node gen personaName s)
  | competitor (s : DebateState) : DebateStep gen personaName s (competitor_node gen personaName s)
  | regulation (s : DebateState) : DebateStep gen personaName s (regulation_node gen personaName s)
  | moderator (s : DebateState) : DebateStep gen personaName s (moderator_node gen personaName s)

/-- Concrete content oracle for witnesses: constant reply. -/
def wGen : String → String → DebateState → String := fun _ _ _ => "a short reply"

/-- Concrete persona display-name table for witnesses. -/
def wPersona : String → String := fun k => k

/-- Concrete initial state for witnesses. -/
def wInit : DebateState := initial_state ("solid state batteries") ("expert_1") ("a")

/-- The state after one optimist turn from wInit. -/
def wAfterOpt : DebateState := optimist_node wGen wPersona wInit

/-- A concrete mid-debate state for checking the Mode C router. -/
def wRouterState : DebateState :=
  { topic := "solid state batteries", expert_id := "expert_1", messages := [],
    current_speaker := "P_OPT", turns := 2, mode := "c", status := "start" }

/-! ### Layer 2: knowledge-partition management (vector_store.py) -/

/-- The two store primitives used by expert_exists and delete_expert,
modelled as oracles that may fail: get restricted to one expert_id with
limit 1 (the result is the ids field of the returned record), and delete
restricted to one expert_id. -/
structure ChromaOps where
  get_by_expert : String → Except String (List String)
  delete_by_expert : String → Except String Unit
deriving Inhabited

/-- expert_exists: ask the store for one record of the partition and test
whether any id came back.  The source has no try/except here, so a store
error propagates to the caller (hence the Except result type). -/
def expert_exists (ops : ChromaOps) (expert_id : String) : Except String Bool :=
  match ops.get_by_expert expert_id with
  | Except.ok ids => Except.ok (decide (0 < ids.length))
  | Except.error e => Except.error e

/-- delete_expert: inside a try/except returning False on any error; when
the partition does not exist return False, else delete and return True. -/
def delete_expert (ops : ChromaOps) (expert_id : String) : Bool :=
  match expert_exists ops expert_id with
  | Except.error _ => false
  | Except.ok b =>
    if b then
      match ops.delete_by_expert expert_id with
      | Except.error _ => false
      | Except.ok _ => true
    else false

/-- One metadata record of the store, restricted to the fields
list_experts reads; a field absent from the dict (or None) is none. -/
structure ChromaMeta where
  expert_id : Option String
  topic : Option String
  source : Option String
deriving DecidableEq

/-- The per-expert aggregate built by list_experts. -/
structure ExpertInfo where
  expert_id : String
  topic : String
  doc_count : Nat
  articles : Nat
  patents : Nat
  news : Nat
deriving DecidableEq

/-- The metadata scan backing list_experts: the outcome of
vector_store.get(include=[metadatas]); entries can be None. -/
structure VectorStoreData where
  metadatas : Except String (List (Option ChromaMeta))

/-- Lower-casing over code points, modelling the Python str.lower call on
the source tags (executable down to the kernel, unlike the bundled string
functions). -/
def strLower (s : String) : String := String.mk (s.data.map Char.toLower)

/-- Substring test over code-point lists, modelling the Python membership
test `sub in s`. -/
def hasSubSeq (sub : List Char) : List Char → Bool
  | [] => decide (sub = [])
  | c :: rest => decide ((c :: rest).take sub.length = sub) || hasSubSeq sub rest

/-- Python `sub in s` on strings. -/
def pyContains (s sub : String) : Bool := hasSubSeq sub.data s.data

/-- The source-classification arm of list_experts: bump doc_count and then
one of articles, patents or news depending on which tag the lower-cased
source string contains. -/
def bumpCounts (info : ExpertInfo) (source : String) : ExpertInfo :=
  let base : ExpertInfo := { info with doc_count := info.doc_count + 1 }
  if pyContains source ("openalex") then { base with articles := base.articles + 1 }
  else if pyContains source ("uspto") || pyContains source ("epo") then
    { base with patents := base.patents + 1 }
  else if pyContains source ("tavily") || pyContains source ("news") then
    { base with news := base.news + 1 }
  else if pyContains source ("patent") then { base with patents := base.patents + 1 }
  else { base with articles := base.articles + 1 }

/-- The aggregate entry created on first sight of an expert id. -/
def freshExpert (e_id : String) (meta : ChromaMeta) : ExpertInfo :=
  { expert_id := e_id, topic := meta.topic.getD ("Unknown"),
    doc_count := 0, articles := 0, patents := 0, news := 0 }

/-- Processing of one metadata record by list_experts: skip a missing or
falsy expert_id; otherwise create the aggregate entry on first sight
(insertion order preserved, as for a Python dict) and bump the counters of
the entry with this id. -/
def addMeta (expert_map : List ExpertInfo) (meta : ChromaMeta) : List ExpertInfo :=
  match meta.expert_id with
  | none => expert_map
  | some e_id =>
    if e_id = "" then expert_map
    else
      let m1 := if expert_map.any (fun x => x.expert_id = e_id) then expert_map
        else expert_map ++ [freshExpert e_id meta]
      m1.map (fun x =>
        if x.expert_id = e_id then bumpCounts x (strLower (meta.source.getD (""))) else x)

/-- The loop step of list_experts over the raw metadata list: a falsy
(None) record is skipped. -/
def list_step (m : List ExpertInfo) (om : Option ChromaMeta) : List ExpertInfo :=
  match om with
  | none => m
  | some meta => addMeta m meta

/-- list_experts: scan all metadata records and aggregate per expert_id;
any scan error is caught and turned into the empty list. -/
def list_experts (st : VectorStoreData) : List ExpertInfo :=
  match st.metadatas with
  | Except.error _ => []
  | Except.ok metas => metas.foldl list_step []

/-- Code-point drop, modelling the Python slice eid[7:]. -/
def strDrop (s : String) (n : Nat) : String := String.mk (s.data.drop n)

/-- Python str.isdigit on the ASCII digits the source can parse: nonempty
and all characters are decimal digits. -/
def pyIsDigit (s : String) : Bool := decide (s.data ≠ []) && s.data.all Char.isDigit

/-- Decimal value of an all-digit string (the int() call of the source on
a string that passed isdigit). -/
def strToNat (s : String) : Nat := s.data.foldl (fun n c => n * 10 + (c.toNat - 48)) 0

/-- Python str.startswith over code points. -/
def strStartsWith (s pre : String) : Bool := decide (s.data.take pre.data.length = pre.data)

/-- The scan step of generate_next_expert_id: keep the running maximum of
the numeric suffixes of ids of the shape expert_N. -/
def scanStep (max_id : Nat) (exp : ExpertInfo) : Nat :=
  if strStartsWith exp.expert_id ("expert_") && pyIsDigit (strDrop exp.expert_id 7) then
    if max_id < strToNat (strDrop exp.expert_id 7) then strToNat (strDrop exp.expert_id 7)
    else max_id
  else max_id

/-- generate_next_expert_id: one greater than the largest numeric suffix
among the known expert ids, expert_1 when none match.  The try/except of
the source (falling back to a random uuid-based id) cannot fire in this
model: list_experts already absorbs the store error and the remainder of
the body is total, so the embedded function is the try body. -/
def generate_next_expert_id (st : VectorStoreData) : String :=
  ("expert_") ++ toString ((list_experts st).foldl scanStep 0 + 1)

/-- The numeric suffix of an id of the shape expert_N, following the words
of the specification (none for an id not of that shape). -/
def expertNumOf (eid : String) : Option Nat :=
  if strStartsWith eid ("expert_") && pyIsDigit (strDrop eid 7) then
    some (strToNat (strDrop eid 7))
  else none

/-- All expert_id values present in the raw metadata records of the store:
the existing expert ids in the sense of the specification. -/
def storedExpertIds (metas : List (Option ChromaMeta)) : List String :=
  metas.filterMap (fun om => om.bind (fun m => m.expert_id))

/-- Specification-side next id: expert_ followed by one greater than the
maximum numeric suffix over all ids of the shape expert_N, ignoring all
other ids. -/
def specNextExpertId (ids : List String) : String :=
  ("expert_") ++ toString ((ids.filterMap expertNumOf).foldl Nat.max 0 + 1)

/-- The numeric contribution of one id to the running maximum: its suffix
when it has the shape expert_N, else 0. -/
def contribNum (eid : String) : Nat := (expertNumOf eid).getD 0

/-- Maximum numeric contribution over a list of ids. -/
def maxIdsFold (ids : List String) : Nat :=
  ids.foldl (fun m e => Nat.max m (contribNum e)) 0

/-- The ids of the aggregated expert entries. -/
def idsOf (l : List ExpertInfo) : List String := l.map (fun x => x.expert_id)

/-- The numeric contribution of one raw metadata record. -/
def metaContrib (meta : ChromaMeta) : Nat :=
  match meta.expert_id with
  | none => 0
  | some e => contribNum e

/-- A store whose get always fails. -/
def wOpsDown : ChromaOps :=
  { get_by_expert := fun _ => Except.error ("store unavailable"),
    delete_by_expert := fun _ => Except.error ("store unavailable") }

/-- A store whose get succeeds (one document) but whose delete fails. -/
def wOpsDeleteFails : ChromaOps :=
  { get_by_expert := fun _ => Except.ok [("doc-1")],
    delete_by_expert := fun _ => Except.error ("delete failed") }

/-- A metadata record tagged openalex for a given expert id. -/
def wMetaOf (eid : String) : ChromaMeta :=
  { expert_id := some eid, topic := some ("ammonia cracking"), source := some ("openalex") }

/-- A store holding exactly the partitions expert_1 and expert_3. -/
def wStore13 : VectorStoreData :=
  { metadatas := Except.ok [some (wMetaOf ("expert_1")), some (wMetaOf ("expert_3"))] }

/-- An empty store. -/
def wStoreEmpty : VectorStoreData := { metadatas := Except.ok [] }

/-- A store whose metadata scan fails. -/
def wStoreDown : VectorStoreData := { metadatas := Except.error ("db unavailable") }

/-! ### Layer 1: the query synthesizer (query_expander.py, generate_search_queries) -/

/-- The stop-word set of _count_core_words, as listed in the source (the
source lists the article twice; a duplicate entry does not change
membership). -/
def stopwords : List String :=
  ["a", "an", "the", "in", "on", "at", "to", "for", "of", "with", "by",
   "from", "up", "about", "into", "over", "after", "beneath", "under",
   "above", "the", "and", "or", "but", "is", "are", "was", "were", "be",
   "been", "being", "have", "has", "had", "do", "does", "did", "can", "could",
   "should", "would", "will", "may", "might", "must",
   "technology", "technique", "method", "methodology", "system", "process",
   "approach", "study", "research", "analysis", "survey", "review",
   "based", "using", "via", "through",
   "기술", "시스템", "방법", "기법", "연구", "분석", "개발", "설계", "구현",
   "기반", "활용", "이용", "적용", "관한", "대한"]

/-- Whitespace splitting over code points, modelling the Python
no-argument str.split: runs of whitespace separate words, empty words are
dropped. -/
def pySplitWsAux (acc : List Char) : List Char → List String
  | [] => if acc = [] then [] else [String.mk acc.reverse]
  | c :: rest =>
    if c.isWhitespace then
      if acc = [] then pySplitWsAux [] rest
      else String.mk acc.reverse :: pySplitWsAux [] rest
    else pySplitWsAux (c :: acc) rest

/-- Python str.split() on a string. -/
def pySplitWs (s : String) : List String := pySplitWsAux [] s.data

/-- _count_core_words: the number of words of the lower-cased topic that
are not stop words. -/
def count_core_words (topic : String) : Nat :=
  ((pySplitWs (strLower topic)).filter (fun w => !(stopwords.contains w))).length

/-- The LLM-backed helpers of the query expander, modelled as oracles at
the helper boundary (each wraps one LLM invocation plus fail-soft
parsing): _extract_keywords, _generate_synonyms,
_generate_synonym_expansion_query (empty string on failure) and
_rank_combinations at its fixed call limit of 2. -/
structure LLMHelpers where
  extract_keywords : String → List String
  generate_synonyms : String → List String
  synonym_expansion : String → String
  rank_combinations : String → List (List String) → List (List String)

/-- Wrap one keyword in double quotes for phrase matching. -/
def quoteKw (k : String) : String := "\"" ++ k ++ "\""

/-- The Python join with the AND separator. -/
def joinAnd (parts : List String) : String :=
  match parts with
  | [] => ""
  | p :: rest => rest.foldl (fun acc q => acc ++ (" AND ") ++ q) p

/-- All size-n combinations of a list, in the order of
itertools.combinations. -/
def combinationsLen : Nat → List String → List (List String)
  | 0, _ => [[]]
  | _ + 1, [] => []
  | n + 1, x :: xs => (combinationsLen n xs).map (fun c => x :: c) ++ combinationsLen (n + 1) xs

/-- Priority 0 of generate_search_queries: the synonym-expansion query,
only when the core-word count is below 4 and the helper returned a
nonempty query string. -/
def priority0_queries (h : LLMHelpers) (topic : String) : List String :=
  if count_core_words topic < 4 then
    if h.synonym_expansion topic ≠ "" then [h.synonym_expansion topic] else []
  else []

/-- Priority 1 of generate_search_queries: the exact-AND query over all
extracted phrases, each quoted. -/
def full_exact_query (h : LLMHelpers) (topic : String) : String :=
  joinAnd ((h.extract_keywords topic).map quoteKw)

/-- Priority 1.5 of generate_search_queries: quoted whole-topic synonyms,
only when the topic has fewer than 10 words (appending every element of
the synonym list coincides with the guarded loop of the source also when
the list is empty). -/
def synonym_queries (h : LLMHelpers) (topic : String) : List String :=
  if (pySplitWs topic).length < 10 then (h.generate_synonyms topic).map quoteKw else []

/-- Priority 2 of generate_search_queries: the N-1 relaxation queries,
built only when at least 3 phrases were extracted: enumerate the size
N-1 combinations, let the ranking helper pick, and emit each pick as an
AND-joined quoted query. -/
def relaxation_queries (h : LLMHelpers) (topic : String) : List String :=
  let keywords := h.extract_keywords topic
  let N := keywords.length
  if 3 ≤ N then
    let combos := combinationsLen (N - 1) keywords
    if combos ≠ [] then
      (h.rank_combinations topic combos).map (fun c => joinAnd (c.map quoteKw))
    else []
  else []

/-- generate_search_queries: the four strategy segments appended in
priority order. -/
def generate_search_queries (h : LLMHelpers) (topic : String) : List String :=
  priority0_queries h topic ++ [full_exact_query h topic] ++ synonym_queries h topic ++
    relaxation_queries h topic

/-- Concrete helper oracle for witnesses: extraction returns the topic
itself as the single phrase. -/
def wHelpers : LLMHelpers :=
  { extract_keywords := fun t => [t],
    generate_synonyms := fun _ => [("ammonia decomposition")],
    synonym_expansion := fun _ => "(ammonia) AND (cracking OR decomposition)",
    rank_combinations := fun _ combos => combos.take 2 }

/-- Invariant of the fetch accumulator: the accumulated items have pairwise
distinct dedup keys, and every accumulated key has been recorded as seen. -/
def FetchInv (acc : FetchAcc) : Prop :=
  (acc.all_results.map dedup_key).Nodup ∧
  ∀ k ∈ acc.all_results.map dedup_key, k ∈ acc.seen_ids

theorem processItems_inv (items : List FetchItem) :
    ∀ acc : FetchAcc, FetchInv acc → FetchInv (processItems acc items) := by
  induction items with
  | nil => intro acc h; exact h
  | cons item rest ih =>
    intro acc h
    rw [processItems]
    by_cases hmem : dedup_key item ∈ acc.seen_ids
    · rw [if_pos hmem]; exact ih acc h
    · rw [if_neg hmem]
      refine ih _ ⟨?_, ?_⟩
      · simp only [List.map_append, List.map_cons, List.map_nil]
        rw [List.nodup_append]
        refine ⟨h.1, List.nodup_singleton _, ?_⟩
        intro k hk
        simp only [List.mem_singleton]
        intro hks
        subst hks
        exact hmem (h.2 _ hk)
      · intro k hk
        simp only [List.map_append, List.map_cons, List.map_nil, List.mem_append,
          List.mem_singleton] at hk
        rcases hk with hk | hk
        · exact List.mem_cons_of_mem _ (h.2 k hk)
        · subst hk; exact List.mem_cons_self _ _

theorem adaptive_fetch_loop_inv (fetch : Nat → String → Except String (List FetchItem))
    (limit : Nat) :
    ∀ (queries : List String) (i : Nat) (acc : FetchAcc), FetchInv acc →
      ((adaptive_fetch_loop fetch limit i acc queries).map dedup_key).Nodup := by
  intro queries
  induction queries with
  | nil => intro i acc h; exact h.1
  | cons q qs ih =>
    intro i acc h
    rw [adaptive_fetch_loop]
    cases hf : fetch i q with
    | error e => exact ih (i + 1) acc h
    | ok results =>
      simp only
      have h0 : FetchInv { acc with new_count := 0 } := h
      have h2 := processItems_inv results { acc with new_count := 0 } h0
      by_cases hc : i = 0 ∧ limit ≤ 2 * (processItems { acc with new_count := 0 } results).new_count
      · rw [if_pos hc]; exact h2.1
      · rw [if_neg hc]
        by_cases hl : limit ≤ (processItems { acc with new_count := 0 } results).all_results.length
        · rw [if_pos hl]; exact h2.1
        · rw [if_neg hl]; exact ih (i + 1) _ h2

/-- Claim C1: for every fetch function, every query list, every limit and
every source name, adaptive_fetch returns at most limit items and no two
returned items share a dedup key (the first truthy of id, url,
publication_number for a dict, else the stringification of the item). -/
theorem adaptiveFetch_limit_and_dedup
    (fetch : Nat → String → Except String (List FetchItem)) (queries : List String)
    (limit : Nat) (source_name : String) :
    (adaptive_fetch fetch queries limit source_name).length ≤ limit ∧
    ((adaptive_fetch fetch queries limit source_name).map dedup_key).Nodup := by
  constructor
  · unfold adaptive_fetch
    rw [List.length_take]
    exact min_le_left _ _
  · unfold adaptive_fetch
    have h := adaptive_fetch_loop_inv fetch limit queries 0 emptyFetchAcc
      ⟨List.nodup_nil, by intro k hk; simp [emptyFetchAcc] at hk⟩
    rw [List.map_take]
    exact List.Nodup.sublist (List.take_sublist _ _) h

/-- Claim C2: whenever the first query succeeds and its newly added item
count reaches half of the limit (the integer reading of
new_count >= limit * 0.5), adaptive_fetch stops right after that query:
the result is the deduplicated first-query batch truncated to the limit,
and it is independent of the later queries and of what any fetch function
agreeing on the first call would return for them. -/
theorem adaptiveFetch_first_query_early_stop
    (fetch fetch2 : Nat → String → Except String (List FetchItem))
    (q : String) (qs qs2 : List String) (limit : Nat) (sn sn2 : String)
    (results : List FetchItem)
    (h1 : fetch 0 q = Except.ok results)
    (h2 : fetch2 0 q = Except.ok results)
    (hcount : limit ≤ 2 * (processItems emptyFetchAcc results).new_count) :
    adaptive_fetch fetch (q :: qs) limit sn =
      ((processItems emptyFetchAcc results).all_results).take limit ∧
    adaptive_fetch fetch2 (q :: qs2) limit sn2 =
      adaptive_fetch fetch (q :: qs) limit sn := by
  have key : ∀ (f : Nat → String → Except String (List FetchItem)) (tail : List String)
      (s : String), f 0 q = Except.ok results →
      adaptive_fetch f (q :: tail) limit s =
        ((processItems emptyFetchAcc results).all_results).take limit := by
    intro f tail s hf
    unfold adaptive_fetch
    rw [adaptive_fetch_loop, hf]
    dsimp only
    rw [if_pos ⟨rfl, hcount⟩]
    rfl
  refine ⟨key fetch qs sn h1, ?_⟩
  rw [key fetch qs sn h1, key fetch2 qs2 sn2 h2]

/-- Witness for claim C2 at a concrete input: a fetch whose first query
returns two copies of one record (one new item, limit 2) and whose second
query would fail, against a variant whose second query would add records. -/
theorem adaptiveFetch_first_query_early_stop_check :
    wFetchA 0 "q1" = Except.ok [FetchItem.other ("a"), FetchItem.other ("a")] ∧
    wFetchB 0 "q1" = Except.ok [FetchItem.other ("a"), FetchItem.other ("a")] ∧
    2 ≤ 2 * (processItems emptyFetchAcc
        [FetchItem.other ("a"), FetchItem.other ("a")]).new_count ∧
    (adaptive_fetch wFetchA ["q1", "q2"] 2 "EPO" =
      ((processItems emptyFetchAcc
        [FetchItem.other ("a"), FetchItem.other ("a")]).all_results).take 2 ∧
     adaptive_fetch wFetchB ["q1", "q3"] 2 "EPO" =
      adaptive_fetch wFetchA ["q1", "q2"] 2 "EPO") :=
  ⟨rfl, rfl, by decide,
    adaptiveFetch_first_query_early_stop wFetchA wFetchB ("q1") ["q2"] ["q3"] 2 ("EPO") ("EPO")
      [FetchItem.other ("a"), FetchItem.other ("a")] rfl rfl (by decide)⟩

/-- Claim C6: a fetch error on one query is never fatal: the erroring query
contributes nothing, the accumulator is kept unchanged, and the loop
continues with the next query at the next index; in particular when the
first query errors, adaptive_fetch returns exactly what the remaining
queries produce from an empty accumulator. -/
theorem adaptiveFetch_error_recovery
    (fetch fetchB : Nat → String → Except String (List FetchItem))
    (limit i : Nat) (acc : FetchAcc) (q qB : String) (qs qsB : List String)
    (e eB sn : String)
    (h1 : fetch i q = Except.error e)
    (h2 : fetchB 0 qB = Except.error eB) :
    adaptive_fetch_loop fetch limit i acc (q :: qs) =
      adaptive_fetch_loop fetch limit (i + 1) acc qs ∧
    adaptive_fetch fetchB (qB :: qsB) limit sn =
      (adaptive_fetch_loop fetchB limit 1 emptyFetchAcc qsB).take limit := by
  constructor
  · rw [adaptive_fetch_loop, h1]
  · unfold adaptive_fetch
    rw [adaptive_fetch_loop, h2]

/-- Witness for claim C6 at a concrete input: an always-failing fetch. -/
theorem adaptiveFetch_error_recovery_check :
    wFetchErr 0 "q1" = Except.error ("source down") ∧
    (adaptive_fetch_loop wFetchErr 3 0 emptyFetchAcc ["q1", "q2"] =
       adaptive_fetch_loop wFetchErr 3 1 emptyFetchAcc ["q2"] ∧
     adaptive_fetch wFetchErr ["q1", "q2"] 3 "OpenAlex" =
       (adaptive_fetch_loop wFetchErr 3 1 emptyFetchAcc ["q2"]).take 3) :=
  ⟨rfl,
    adaptiveFetch_error_recovery wFetchErr wFetchErr 3 0 emptyFetchAcc ("q1") ("q1")
      ["q2"] ["q2"] ("source down") ("source down") ("OpenAlex") rfl rfl⟩

theorem take_append_self {α : Type} (l xs : List α) : (l ++ xs).take l.length = l := by
  induction l with
  | nil => rfl
  | cons x l ih => simp [ih]

theorem generate_response_effect (gen : String → String → DebateState → String)
    (personaName : String → String) (state : DebateState) (k a : String) :
    (generate_response gen personaName state k a).turns = state.turns + 1 ∧
    (generate_response gen personaName state k a).messages.length = state.messages.length + 1 ∧
    (generate_response gen personaName state k a).messages.take state.messages.length = state.messages := by
  refine ⟨rfl, ?_, ?_⟩
  · simp [generate_response]
  · simp [generate_response, take_append_self]

theorem debateStep_effect (gen : String → String → DebateState → String)
    (personaName : String → String) (s t : DebateState)
    (h : DebateStep gen personaName s t) :
    t.turns = s.turns + 1 ∧ t.messages.length = s.messages.length + 1 ∧
    t.messages.take s.messages.length = s.messages := by
  cases h with
  | optimist =>
    unfold optimist_node
    split <;> exact generate_response_effect gen personaName s _ _
  | skeptic => exact generate_response_effect gen personaName s _ _
  | competitor => exact generate_response_effect gen personaName s _ _
  | regulation => exact generate_response_effect gen personaName s _ _
  | moderator => exact generate_response_effect gen personaName s _ _

/-- Claim C4: in every mode, at every state reachable from the initial
state the turn counter equals the transcript length, and every persona
turn (the moderator included) appends exactly one message (the previous
transcript is kept as a prefix) and increments the turn counter exactly
once.  The step relation DebateStep enumerates the five node functions,
which are the only operations the engine applies to the state. -/
theorem debate_turns_eq_messages_invariant
    (gen : String → String → DebateState → String) (personaName : String → String)
    (topic expert_id mode : String) (s t t2 : DebateState)
    (hreach : Relation.ReflTransGen (DebateStep gen personaName)
      (initial_state topic expert_id mode) s)
    (hstep : DebateStep gen personaName t t2) :
    s.turns = s.messages.length ∧
    t2.turns = t.turns + 1 ∧ t2.messages.length = t.messages.length + 1 ∧
    t2.messages.take t.messages.length = t.messages := by
  have heff := debateStep_effect gen personaName t t2 hstep
  refine ⟨?_, heff.1, heff.2.1, heff.2.2⟩
  induction hreach with
  | refl => rfl
  | tail hr hs ih =>
    have h2 := debateStep_effect gen personaName _ _ hs
    omega

/-- Witness for claim C4 at a concrete input: the state after one optimist
turn from a concrete initial state. -/
theorem debate_turns_eq_messages_invariant_check :
    wAfterOpt.turns = wAfterOpt.messages.length ∧
    wAfterOpt.turns = wInit.turns + 1 ∧
    wAfterOpt.messages.length = wInit.messages.length + 1 ∧
    wAfterOpt.messages.take wInit.messages.length = wInit.messages :=
  debate_turns_eq_messages_invariant wGen wPersona
    ("solid state batteries") ("expert_1") ("a") wAfterOpt wInit wAfterOpt
    (Relation.ReflTransGen.single (DebateStep.optimist wInit))
    (DebateStep.optimist wInit)

/-- Claim C5: for every topic and expert id (and every content oracle and
persona table), a Mode A run produces exactly 3 messages spoken by the
Optimist, the Skeptic and the Moderator in this order, and a Mode B run
produces exactly 5 messages spoken by the Optimist, the Competitor, the
Skeptic, the Regulator and the Moderator in this order; both graphs are
linear, so there is no branching. -/
theorem modeAB_message_sequence
    (gen : String → String → DebateState → String) (personaName : String → String)
    (topic expert_id : String) :
    (run_mode_a gen personaName topic expert_id).messages.map AIMessage.name =
      [personaName ("P_OPT"), personaName ("P_SKEP"), personaName ("P_MOD")] ∧
    (run_mode_a gen personaName topic expert_id).messages.length = 3 ∧
    (run_mode_b gen personaName topic expert_id).messages.map AIMessage.name =
      [personaName ("P_OPT"), personaName ("P_COMP"), personaName ("P_SKEP"),
       personaName ("P_REG"), personaName ("P_MOD")] ∧
    (run_mode_b gen personaName topic expert_id).messages.length = 5 :=
  ⟨rfl, rfl, rfl, rfl⟩

theorem modeC_body_turns (gen : String → String → DebateState → String)
    (personaName : String → String) (node : String) (state : DebateState) :
    (modeC_body gen personaName node state).turns = state.turns + 1 := by
  unfold modeC_body skeptic_node optimist_node generate_response
  split
  · rfl
  · split <;> rfl

theorem modeC_body_len (gen : String → String → DebateState → String)
    (personaName : String → String) (node : String) (state : DebateState) :
    (modeC_body gen personaName node state).messages.length = state.messages.length + 1 := by
  unfold modeC_body skeptic_node optimist_node
  split
  · exact (generate_response_effect gen personaName state _ _).2.1
  · split <;> exact (generate_response_effect gen personaName state _ _).2.1

theorem routerC_moderator_iff (mt : Nat) (s : DebateState) :
    routerC mt s = "moderator" ↔ mt * 2 ≤ s.turns := by
  unfold routerC
  constructor
  · intro h
    by_contra hn
    rw [if_neg hn] at h
    split at h <;> exact absurd h (by decide)
  · intro h
    rw [if_pos h]

theorem modeC_go_len_stop (gen : String → String → DebateState → String)
    (personaName : String → String) (mt : Nat) (node : String) (state : DebateState)
    (h : mt * 2 ≤ state.turns + 1) :
    (modeC_go gen personaName mt node state).messages.length = state.messages.length + 2 := by
  have hbt := modeC_body_turns gen personaName node state
  have hbl := modeC_body_len gen personaName node state
  have hmod : routerC mt (modeC_body gen personaName node state) = "moderator" := by
    rw [routerC_moderator_iff, hbt]
    omega
  unfold modeC_go
  rw [dif_pos hmod]
  have hml := (generate_response_effect gen personaName
    (modeC_body gen personaName node state) ("P_MOD")
    ("Synthesize the debate so far and provide a conclusion.")).2.1
  unfold moderator_node
  omega

theorem modeC_go_len (gen : String → String → DebateState → String)
    (personaName : String → String) (mt : Nat) :
    ∀ (n : Nat) (node : String) (state : DebateState),
      mt * 2 - state.turns ≤ n → state.turns + 1 ≤ mt * 2 →
      (modeC_go gen personaName mt node state).messages.length =
        state.messages.length + (mt * 2 - state.turns) + 1 := by
  intro n
  induction n with
  | zero =>
    intro node state hn ht
    exfalso
    omega
  | succ n ih =>
    intro node state hn ht
    by_cases hc : mt * 2 ≤ state.turns + 1
    · have := modeC_go_len_stop gen personaName mt node state hc
      omega
    · have hbt := modeC_body_turns gen personaName node state
      have hbl := modeC_body_len gen personaName node state
      have hne : ¬ routerC mt (modeC_body gen personaName node state) = "moderator" := by
        rw [routerC_moderator_iff, hbt]
        omega
      unfold modeC_go
      rw [dif_neg hne]
      have hrec := ih (routerC mt (modeC_body gen personaName node state))
        (modeC_body gen personaName node state) (by omega) (by omega)
      omega

/-- Claim C3: in Mode C from the initial state with per-persona budget
max_turns at least 1, the router hands control to the moderator exactly
when the turn counter reached 2 * max_turns and otherwise alternates
optimist to skeptic and skeptic to optimist; the run terminates (run_mode_c
is a total function, defined by well-founded recursion on the remaining
turn budget) and the final transcript length lies between 3 and
2 * max_turns + 1 inclusive. -/
theorem modeC_router_termination_bounds
    (gen : String → String → DebateState → String) (personaName : String → String)
    (topic expert_id : String) (mt : Nat) (s : DebateState)
    (hmt : 1 ≤ mt) :
    (routerC mt s = "moderator" ↔ mt * 2 ≤ s.turns) ∧
    (s.turns < mt * 2 → s.current_speaker = "P_OPT" → routerC mt s = "skeptic") ∧
    (s.turns < mt * 2 → s.current_speaker = "P_SKEP" → routerC mt s = "optimist") ∧
    3 ≤ (run_mode_c gen personaName topic expert_id mt).messages.length ∧
    (run_mode_c gen personaName topic expert_id mt).messages.length ≤ mt * 2 + 1 := by
  have hlen : (run_mode_c gen personaName topic expert_id mt).messages.length = mt * 2 + 1 := by
    have h0 := modeC_go_len gen personaName mt (mt * 2) ("optimist")
      (initial_state topic expert_id ("c")) (by simp [initial_state]) (by simp [initial_state]; omega)
    unfold run_mode_c
    rw [h0]
    simp [initial_state]
  refine ⟨routerC_moderator_iff mt s, ?_, ?_, ?_, ?_⟩
  · intro hturn hspk
    unfold routerC
    rw [if_neg (by omega), if_pos hspk]
  · intro hturn hspk
    unfold routerC
    rw [if_neg (by omega), if_neg (by rw [hspk]; decide)]
  · omega
  · omega

/-- Witness for claim C3 at a concrete input: budget 1 and a state with
two elapsed turns, where the router goes to the moderator. -/
theorem modeC_router_termination_bounds_check :
    (routerC 1 wRouterState = "moderator" ↔ 1 * 2 ≤ wRouterState.turns) ∧
    (wRouterState.turns < 1 * 2 → wRouterState.current_speaker = "P_OPT" →
      routerC 1 wRouterState = "skeptic") ∧
    (wRouterState.turns < 1 * 2 → wRouterState.current_speaker = "P_SKEP" →
      routerC 1 wRouterState = "optimist") ∧
    3 ≤ (run_mode_c wGen wPersona ("solid state batteries") ("expert_1") 1).messages.length ∧
    (run_mode_c wGen wPersona ("solid state batteries") ("expert_1") 1).messages.length ≤ 1 * 2 + 1 :=
  modeC_router_termination_bounds wGen wPersona
    ("solid state batteries") ("expert_1") 1 wRouterState (by decide)

theorem natMax_zero (n : Nat) : Nat.max n 0 = n := Nat.max_zero n

theorem natZero_max (n : Nat) : Nat.max 0 n = n := Nat.zero_max n

theorem natMax_assoc (a b c : Nat) : Nat.max (Nat.max a b) c = Nat.max a (Nat.max b c) :=
  Nat.max_assoc a b c

theorem natMax_eq_left {a b : Nat} (h : b ≤ a) : Nat.max a b = a := Nat.max_eq_left h

theorem foldl_max_contrib_init (ids : List String) :
    ∀ a : Nat, ids.foldl (fun m e => Nat.max m (contribNum e)) a = Nat.max a (maxIdsFold ids) := by
  induction ids with
  | nil => intro a; show a = Nat.max a (maxIdsFold []); show a = Nat.max a 0; rw [natMax_zero]
  | cons e t ih =>
    intro a
    show t.foldl (fun m e => Nat.max m (contribNum e)) (Nat.max a (contribNum e)) =
      Nat.max a (maxIdsFold (e :: t))
    rw [ih]
    show _ = Nat.max a (t.foldl (fun m e => Nat.max m (contribNum e)) (Nat.max 0 (contribNum e)))
    rw [ih]
    rw [natZero_max, natMax_assoc]

theorem maxIdsFold_cons (e : String) (ids : List String) :
    maxIdsFold (e :: ids) = Nat.max (contribNum e) (maxIdsFold ids) := by
  show ids.foldl (fun m e => Nat.max m (contribNum e)) (Nat.max 0 (contribNum e)) = _
  rw [foldl_max_contrib_init]
  rw [natZero_max]

theorem maxIdsFold_append_one (ids : List String) (e : String) :
    maxIdsFold (ids ++ [e]) = Nat.max (maxIdsFold ids) (contribNum e) := by
  unfold maxIdsFold
  rw [List.foldl_append]
  rfl

theorem contrib_le_of_mem (e : String) (ids : List String) (h : e ∈ ids) :
    contribNum e ≤ maxIdsFold ids := by
  induction ids with
  | nil => cases h
  | cons x t ih =>
    rw [maxIdsFold_cons]
    rcases List.mem_cons.mp h with he | he
    · subst he; exact Nat.le_max_left _ _
    · exact Nat.le_trans (ih he) (Nat.le_max_right _ _)

theorem bumpCounts_expert_id (info : ExpertInfo) (source : String) :
    (bumpCounts info source).expert_id = info.expert_id := by
  unfold bumpCounts
  split
  · rfl
  split
  · rfl
  split
  · rfl
  split
  · rfl
  · rfl

theorem idsOf_map_bump (m : List ExpertInfo) (e s : String) :
    idsOf (m.map (fun x => if x.expert_id = e then bumpCounts x s else x)) = idsOf m := by
  induction m with
  | nil => rfl
  | cons x t ih =>
    unfold idsOf at *
    simp only [List.map_cons, List.cons.injEq]
    refine ⟨?_, ih⟩
    split
    · exact bumpCounts_expert_id x s
    · rfl

theorem storedExpertIds_cons_none (om : Option ChromaMeta) (rest : List (Option ChromaMeta))
    (h : om.bind (fun x => x.expert_id) = none) :
    storedExpertIds (om :: rest) = storedExpertIds rest := by
  unfold storedExpertIds
  rw [List.filterMap_cons, h]

theorem storedExpertIds_cons_some (om : Option ChromaMeta) (rest : List (Option ChromaMeta))
    (e : String) (h : om.bind (fun x => x.expert_id) = some e) :
    storedExpertIds (om :: rest) = e :: storedExpertIds rest := by
  unfold storedExpertIds
  rw [List.filterMap_cons, h]

theorem addMeta_max (m : List ExpertInfo) (meta : ChromaMeta) :
    maxIdsFold (idsOf (addMeta m meta)) =
      Nat.max (maxIdsFold (idsOf m)) (metaContrib meta) := by
  cases hid : meta.expert_id with
  | none =>
    rw [show addMeta m meta = m from by unfold addMeta; rw [hid]]
    rw [show metaContrib meta = 0 from by unfold metaContrib; rw [hid]]
    rw [natMax_zero]
  | some e =>
    rw [show metaContrib meta = contribNum e from by unfold metaContrib; rw [hid]]
    by_cases he : e = ""
    · rw [show addMeta m meta = m from by unfold addMeta; rw [hid]; dsimp only; rw [if_pos he]]
      subst he
      rw [show contribNum ("") = 0 from by decide]
      rw [natMax_zero]
    · have hstep : addMeta m meta =
          (if (m.any (fun x => x.expert_id = e)) = true then m
           else m ++ [freshExpert e meta]).map
            (fun x => if x.expert_id = e then bumpCounts x (strLower (meta.source.getD (""))) else x) := by
        unfold addMeta
        rw [hid]
        dsimp only
        rw [if_neg he]
      rw [hstep]
      by_cases hmem : (m.any (fun x => x.expert_id = e)) = true
      · rw [if_pos hmem, idsOf_map_bump]
        have hin : e ∈ idsOf m := by
          rcases List.any_eq_true.mp hmem with ⟨x, hx, hxe⟩
          exact List.mem_map.mpr ⟨x, hx, of_decide_eq_true hxe⟩
        rw [natMax_eq_left (contrib_le_of_mem e (idsOf m) hin)]
      · rw [if_neg hmem, idsOf_map_bump]
        have hids : idsOf (m ++ [freshExpert e meta]) = idsOf m ++ [e] := by
          unfold idsOf
          rw [List.map_append]
          rfl
        rw [hids, maxIdsFold_append_one]

theorem list_fold_max (metas : List (Option ChromaMeta)) :
    ∀ m : List ExpertInfo,
      maxIdsFold (idsOf (metas.foldl list_step m)) =
        Nat.max (maxIdsFold (idsOf m)) (maxIdsFold (storedExpertIds metas)) := by
  induction metas with
  | nil =>
    intro m
    show maxIdsFold (idsOf m) = Nat.max (maxIdsFold (idsOf m)) (maxIdsFold [])
    show maxIdsFold (idsOf m) = Nat.max (maxIdsFold (idsOf m)) 0
    rw [natMax_zero]
  | cons om rest ih =>
    intro m
    show maxIdsFold (idsOf (rest.foldl list_step (list_step m om))) = _
    rw [ih (list_step m om)]
    cases om with
    | none =>
      rw [storedExpertIds_cons_none none rest rfl]
      rfl
    | some meta =>
      show Nat.max (maxIdsFold (idsOf (addMeta m meta))) _ = _
      rw [addMeta_max]
      cases hid : meta.expert_id with
      | none =>
        rw [storedExpertIds_cons_none (some meta) rest
          (by show meta.expert_id = none; exact hid)]
        rw [show metaContrib meta = 0 from by unfold metaContrib; rw [hid]]
        rw [natMax_zero]
      | some e =>
        rw [storedExpertIds_cons_some (some meta) rest e
          (by show meta.expert_id = some e; exact hid)]
        rw [maxIdsFold_cons]
        rw [show metaContrib meta = contribNum e from by unfold metaContrib; rw [hid]]
        rw [natMax_assoc]

theorem scanStep_max (m : Nat) (x : ExpertInfo) :
    scanStep m x = Nat.max m (contribNum x.expert_id) := by
  unfold scanStep contribNum expertNumOf
  by_cases h : (strStartsWith x.expert_id ("expert_") && pyIsDigit (strDrop x.expert_id 7)) = true
  · rw [if_pos h, if_pos h]
    rcases Nat.lt_or_ge m (strToNat (strDrop x.expert_id 7)) with hlt | hge
    · rw [if_pos hlt]
      exact (Nat.max_eq_right (Nat.le_of_lt hlt)).symm
    · rw [if_neg (Nat.not_lt.mpr hge)]
      exact (Nat.max_eq_left hge).symm
  · rw [if_neg h, if_neg h]
    exact (natMax_zero m).symm

theorem foldl_scan_eq (l : List ExpertInfo) :
    ∀ a : Nat, l.foldl scanStep a = Nat.max a (maxIdsFold (idsOf l)) := by
  induction l with
  | nil => intro a; exact (natMax_zero a).symm
  | cons x t ih =>
    intro a
    show t.foldl scanStep (scanStep a x) = _
    rw [scanStep_max, ih]
    rw [show idsOf (x :: t) = x.expert_id :: idsOf t from rfl, maxIdsFold_cons, natMax_assoc]

theorem foldl_natMax_init (l : List Nat) :
    ∀ a : Nat, l.foldl Nat.max a = Nat.max a (l.foldl Nat.max 0) := by
  induction l with
  | nil => intro a; exact (natMax_zero a).symm
  | cons x t ih =>
    intro a
    show t.foldl Nat.max (Nat.max a x) = Nat.max a (t.foldl Nat.max (Nat.max 0 x))
    rw [ih (Nat.max a x), ih (Nat.max 0 x), natZero_max, natMax_assoc]

theorem filterMap_max_eq (ids : List String) :
    (ids.filterMap expertNumOf).foldl Nat.max 0 = maxIdsFold ids := by
  induction ids with
  | nil => rfl
  | cons e t ih =>
    cases he : expertNumOf e with
    | none =>
      simp only [List.filterMap_cons, he]
      rw [maxIdsFold_cons]
      rw [show contribNum e = 0 from by unfold contribNum; rw [he]; rfl]
      rw [ih, natZero_max]
    | some n =>
      simp only [List.filterMap_cons, he]
      rw [maxIdsFold_cons]
      rw [show contribNum e = n from by unfold contribNum; rw [he]; rfl]
      show (t.filterMap expertNumOf).foldl Nat.max (Nat.max 0 n) = _
      rw [foldl_natMax_init, ih, natZero_max]

/-- Claim C9: for every store state, generate_next_expert_id returns
expert_ followed by one greater than the maximum numeric suffix over all
stored expert ids of the shape expert_N (other ids are ignored); on a
store containing exactly expert_1 and expert_3 it returns expert_4, and on
an empty store it returns expert_1. -/
theorem next_expert_id_spec (metas : List (Option ChromaMeta)) :
    generate_next_expert_id { metadatas := Except.ok metas } =
      specNextExpertId (storedExpertIds metas) ∧
    generate_next_expert_id wStore13 = "expert_4" ∧
    generate_next_expert_id wStoreEmpty = "expert_1" := by
  refine ⟨?_, by decide, by decide⟩
  unfold generate_next_expert_id specNextExpertId
  rw [filterMap_max_eq]
  rw [show list_experts { metadatas := Except.ok metas } = metas.foldl list_step [] from rfl]
  rw [foldl_scan_eq, natZero_max, list_fold_max metas]
  rw [show maxIdsFold (idsOf []) = 0 from rfl, natZero_max]

/-- Counterexample for claim C8: the claim states that a store error during
expert_exists is returned to the caller as a boolean failure signal and
never propagated; on a store whose get fails, expert_exists propagates the
error instead of returning a boolean. -/
theorem expert_exists_propagates_store_error :
    expert_exists wOpsDown ("expert_1") = Except.error ("store unavailable") ∧
    (expert_exists wOpsDown ("expert_1")).isOk = false :=
  ⟨rfl, rfl⟩

/-- Claim C8 amended: a store error during delete_expert (either while it
checks existence or while it deletes) is returned as the boolean false and
never propagated; expert_exists itself, having no handler, propagates the
store error to its caller. -/
theorem delete_expert_bool_on_store_error
    (ops opsB : ChromaOps) (eid e eB : String) (ids : List String)
    (h1 : ops.get_by_expert eid = Except.error e)
    (h2 : opsB.get_by_expert eid = Except.ok ids)
    (h3 : opsB.delete_by_expert eid = Except.error eB) :
    expert_exists ops eid = Except.error e ∧
    delete_expert ops eid = false ∧
    delete_expert opsB eid = false := by
  refine ⟨?_, ?_, ?_⟩
  · unfold expert_exists
    rw [h1]
  · unfold delete_expert expert_exists
    rw [h1]
  · unfold delete_expert expert_exists
    rw [h2, h3]
    dsimp only
    split <;> rfl

/-- Witness for the amended claim C8 at concrete inputs: a store whose get
fails and a store whose delete fails. -/
theorem delete_expert_bool_on_store_error_check :
    wOpsDown.get_by_expert ("expert_1") = Except.error ("store unavailable") ∧
    wOpsDeleteFails.get_by_expert ("expert_1") = Except.ok [("doc-1")] ∧
    wOpsDeleteFails.delete_by_expert ("expert_1") = Except.error ("delete failed") ∧
    (expert_exists wOpsDown ("expert_1") = Except.error ("store unavailable") ∧
     delete_expert wOpsDown ("expert_1") = false ∧
     delete_expert wOpsDeleteFails ("expert_1") = false) :=
  ⟨rfl, rfl, rfl,
    delete_expert_bool_on_store_error wOpsDown wOpsDeleteFails ("expert_1")
      ("store unavailable") ("delete failed") [("doc-1")] rfl rfl rfl⟩

/-- Counterexample for claim C10: the claim states that when the metadata
scan fails, generate_next_expert_id returns expert_ followed by 8 random
hexadecimal characters; in the code the scan failure is already absorbed
inside list_experts (which returns the empty list), so the function
returns the numeric successor expert_1, whose suffix has length 1, not 8. -/
theorem next_expert_id_scan_error_value :
    generate_next_expert_id wStoreDown = "expert_1" ∧
    (strDrop (generate_next_expert_id wStoreDown) 7).data.length ≠ 8 :=
  ⟨rfl, by decide⟩

/-- Claim C10 amended: generate_next_expert_id never raises, and when the
store scan fails it still returns a string starting with expert_; but the
error branch is absorbed by list_experts, so the result is the
deterministic numeric fallback expert_1 rather than a uuid-based id (the
uuid except-branch of the source is unreachable). -/
theorem next_expert_id_scan_error_fallback (e : String) :
    generate_next_expert_id { metadatas := Except.error e } = "expert_1" ∧
    strStartsWith (generate_next_expert_id { metadatas := Except.error e }) ("expert_") = true := by
  have h : generate_next_expert_id { metadatas := Except.error e } = "expert_1" := by
    unfold generate_next_expert_id
    rw [show list_experts { metadatas := Except.error e } = [] from rfl]
    decide
  refine ⟨h, by rw [h]; decide⟩

/-- Claim C7: whenever keyword extraction yields fewer than 3 phrases, the
generated query list contains no N-1 relaxation query: the relaxation
segment is empty and the result is exactly the priority-0 expansion
followed by the exact-AND query and the synonym queries (relaxation
queries are appended only when the phrase count is at least 3). -/
theorem no_relaxation_below_three_keywords (h : LLMHelpers) (topic : String)
    (hN : (h.extract_keywords topic).length < 3) :
    relaxation_queries h topic = [] ∧
    generate_search_queries h topic =
      priority0_queries h topic ++ [full_exact_query h topic] ++ synonym_queries h topic := by
  have hrel : relaxation_queries h topic = [] := by
    unfold relaxation_queries
    dsimp only
    rw [if_neg (by omega)]
  refine ⟨hrel, ?_⟩
  unfold generate_search_queries
  rw [hrel, List.append_nil]

/-- Witness for claim C7 at a concrete input: a two-core-word topic whose
extraction yields a single phrase. -/
theorem no_relaxation_below_three_keywords_check :
    (wHelpers.extract_keywords ("ammonia cracking")).length < 3 ∧
    (relaxation_queries wHelpers ("ammonia cracking") = [] ∧
     generate_search_queries wHelpers ("ammonia cracking") =
       priority0_queries wHelpers ("ammonia cracking") ++
         [full_exact_query wHelpers ("ammonia cracking")] ++
         synonym_queries wHelpers ("ammonia cracking")) :=
  ⟨by decide, no_relaxation_below_three_keywords wHelpers ("ammonia cracking") (by decide)⟩
